import Mathlib

/-!
Verification development for the core of the ruru toolkit
(src/dsl.rs and src/class/array.rs).

The development shallowly embeds the code that the four code generators of
`dsl.rs` (`class!`, `methods!`, `unsafe_methods!`, `wrappable_struct!`)
expand to, together with the `Array` wrapper of `class/array.rs`.

Parts of the repository referenced by that code but not present under
src/ (`VM::parse_arguments`, `Object::to`, `Object::try_convert_to`,
`binding::array::entry`, `typed_data::free`, `result::Error`,
`util::str_to_cstring`, `wrap_data`, `get_data`) are modelled from the
specification; every such definition says so in its doc comment.
-/

/-- A VM value: an opaque tagged machine word. `tag` records the name of
the VM class of the referent (the class tag the VM would report through
`class_of`); `word` is the machine word itself. -/
structure Value where
  tag : String
  word : Nat
deriving DecidableEq

/-- The VM's nil value. -/
def nilValue : Value := ⟨"NilClass", 0⟩

/-- Models `Value::from(n)` for a raw machine word (used for the `flags`
field of a data-type descriptor). -/
def Value.fromRaw (n : Nat) : Value := ⟨"", n⟩

/-- `AnyObject`: a VM value of unknown class (one `Value` field). -/
structure AnyObject where
  value : Value
deriving DecidableEq

/-- A VM class as seen from the native side, identified by its name. -/
structure RClass where
  name : String
deriving DecidableEq

/-- A typed wrapper minted by a conversion: the target class together
with the underlying VM value. -/
structure Typed where
  cls : RClass
  value : Value
deriving DecidableEq

/-- The ASCII single-quote character, used by the generated
argument-error message. -/
def squote : String := String.singleton (Char.ofNat 39)

/-- Structured failure from conversion or argument parsing
(`result::Error`, not under src/). The `ArgumentError` payload is the
single formatted string built by the `methods!` generator in
`src/dsl.rs`; `TypeMismatch` is modelled from the spec: a checked
conversion failed, carrying the expected and the actual class name. -/
inductive Error where
  | ArgumentError (message : String)
  | TypeMismatch (expected actual : String)
deriving DecidableEq

/-- Modelled from the spec: the unchecked downcast `Object::to::<T>`
(`object.rs` is not under src/) — transmute structurally, no class
check; defined for every value whatever its class tag. -/
def AnyObject.to (c : RClass) (o : AnyObject) : Typed := ⟨c, o.value⟩

/-- Modelled from the spec: the checked conversion
`Object::try_convert_to::<T>` (`object.rs` is not under src/) — compare
the value's class tag with the target class; on match mint the typed
wrapper, on mismatch return `TypeMismatch { expected, actual }`. -/
def AnyObject.try_convert_to (c : RClass) (o : AnyObject) : Except Error Typed :=
  if o.value.tag = c.name then Except.ok ⟨c, o.value⟩
  else Except.error (Error.TypeMismatch c.name o.value.tag)

/-- Outcome of running one generated thunk (or its body): a normal
return, a native panic unwinding, or a VM-side exception raise issued
through the ABI bridge. -/
inductive Outcome (ρ : Type) where
  | ok (r : ρ)
  | panicked (message : String)
  | raised (message : String)
deriving DecidableEq

/-- Modelled from the spec: `VM::parse_arguments(argc, argv)` (not under
src/) materialises the raw `argv` pointer as a view of exactly `argc`
values. The raw pointer is modelled as a function from slot index to the
value stored there. -/
def VM.parse_arguments (argc : Nat) (argv : Nat → AnyObject) : List AnyObject :=
  (List.range argc).map argv

/-- The argument-error message built by the `methods!` generator
(src/dsl.rs, lines 296-304):
`format!("Argument \x7b\x7d...", stringify!(arg_name), stringify!(arg_type), stringify!(method_name))`. -/
def argumentErrorMessage (methodName argName argTypeName : String) : String :=
  "Argument " ++ squote ++ argName ++ ": " ++ argTypeName ++ squote ++
    " not found for method " ++ squote ++ methodName ++ squote

/-- One argument binding of a safe thunk (src/dsl.rs, lines 293-308):
`_arguments.get(_i).ok_or(Error::ArgumentError(...)).and_then(try_convert_to)`. -/
def methodsBindArg (methodName argName : String) (argType : RClass)
    (arguments : List AnyObject) (i : Nat) : Except Error Typed :=
  match arguments[i]? with
  | none => Except.error (Error.ArgumentError
      (argumentErrorMessage methodName argName argType.name))
  | some a => AnyObject.try_convert_to argType a

/-- The sequence of `let $arg_name = ...` bindings of a safe thunk, in
declaration order, starting at slot counter `_i = i`; the counter
advances by one per declared argument (src/dsl.rs, lines 290-311). -/
def methodsBindings (methodName : String) (arguments : List AnyObject) :
    List (String × RClass) → Nat → List (Except Error Typed)
  | [], _ => []
  | (argName, argType) :: rest, i =>
      methodsBindArg methodName argName argType arguments i ::
        methodsBindings methodName arguments rest (i + 1)

/-- The function generated by `methods!` for one method (src/dsl.rs,
lines 284-314): parse `argv`, compute the fallible bindings, run the
user body on them. The body receives the binding list and the receiver
and produces the thunk's outcome. -/
def methodsThunk {ρ : Type} (methodName : String) (args : List (String × RClass))
    (body : List (Except Error Typed) → AnyObject → Outcome ρ)
    (argc : Nat) (argv : Nat → AnyObject) (itself : AnyObject) : Outcome ρ :=
  let _arguments := VM.parse_arguments argc argv
  body (methodsBindings methodName _arguments args 0) itself

/-- Rust `Vec` indexing `_arguments[_i]`: yields the element when the
index is in bounds and panics otherwise. -/
def vecIndex (l : List AnyObject) (i : Nat) : Outcome AnyObject :=
  match l[i]? with
  | some a => Outcome.ok a
  | none => Outcome.panicked "index out of bounds"

/-- The sequence of `let $arg_name = unsafe { ... }` bindings of an
unchecked thunk generated by the second macro of src/dsl.rs (lines
162-171): index `_arguments[_i]`, downcast without a check, advance
`_i` by one; an out-of-bounds index panics before the next binding. -/
def umethodsBindings (arguments : List AnyObject) :
    List (String × RClass) → Nat → Outcome (List Typed)
  | [], _ => Outcome.ok []
  | (_, argType) :: rest, i =>
      match vecIndex arguments i with
      | Outcome.ok a =>
          match umethodsBindings arguments rest (i + 1) with
          | Outcome.ok bs => Outcome.ok (AnyObject.to argType a :: bs)
          | Outcome.panicked m => Outcome.panicked m
          | Outcome.raised m => Outcome.raised m
      | Outcome.panicked m => Outcome.panicked m
      | Outcome.raised m => Outcome.raised m

/-- The function generated by the unchecked generator of src/dsl.rs
(lines 156-174) for one method: parse `argv`, bind every declared
argument by unchecked indexing and downcast, then run the body. A panic
while binding propagates; there is no interception. -/
def umethodsThunk {ρ : Type} (args : List (String × RClass))
    (body : List Typed → AnyObject → Outcome ρ)
    (argc : Nat) (argv : Nat → AnyObject) (itself : AnyObject) : Outcome ρ :=
  let _arguments := VM.parse_arguments argc argv
  match umethodsBindings _arguments args 0 with
  | Outcome.ok bs => body bs itself
  | Outcome.panicked m => Outcome.panicked m
  | Outcome.raised m => Outcome.raised m

/-- Stated from the spec's words, for comparison with
`umethodsBindings`: each declared argument, in declaration order, is
the unchecked downcast of its `argv` slot, slots advancing by one. -/
def specUncheckedBindings (argv : Nat → AnyObject) :
    List (String × RClass) → Nat → List Typed
  | [], _ => []
  | (_, argType) :: rest, i =>
      AnyObject.to argType (argv i) :: specUncheckedBindings argv rest (i + 1)

/- ### The wrappable-struct facility -/

/-- A C pointer: null or an address. -/
inductive CPtr where
  | null
  | addr (n : Nat)
deriving DecidableEq

/-- A `dmark` callback pointer (never installed by the generator). -/
inductive MarkFn where
  | mk (n : Nat)
deriving DecidableEq

/-- A `dsize` callback pointer (never installed by the generator). -/
inductive SizeFn where
  | mk (n : Nat)
deriving DecidableEq

/-- A `dfree` callback pointer. `typedDataFree s` models the
monomorphised generic destructor `typed_data::free::<T>` (not under
src/; modelled from the spec: it runs `T`'s native destructor) for the
native type named `s`. -/
inductive FreeFn where
  | typedDataFree (structName : String)
deriving DecidableEq

/-- Modelled from the spec: `util::str_to_cstring` (not under src/) —
the NUL-terminated byte string of `s`. -/
def str_to_cstring (s : String) : List Char := s.data ++ [Char.ofNat 0]

/-- The `function` sub-record of a data-type descriptor (mark, free,
size callbacks and two reserved pointer-sized slots). -/
structure DataTypeFunction where
  dmark : Option MarkFn
  dfree : Option FreeFn
  dsize : Option SizeFn
  reserved : List CPtr
deriving DecidableEq

/-- The VM's data-type descriptor record. -/
structure DataType where
  wrap_struct_name : List Char
  parent : CPtr
  data : CPtr
  flags : Value
  function : DataTypeFunction
deriving DecidableEq

/-- The registry struct generated by `wrappable_struct!` (src/dsl.rs,
lines 445-448): one descriptor plus a phantom type parameter. -/
structure WrapperRegistry (T : Type) where
  data_type : DataType

/-- The constructor body of the generated registry (src/dsl.rs, lines
455-478), instantiated at the declared struct, whose stringified name
is `structName`: name `"Ruru/<T>"` as a NUL-terminated C string, null
parent and data, zero flags, no mark, the generic destructor as free,
no size, two zeroed reserved slots. -/
def WrapperRegistry.new (T : Type) (structName : String) : WrapperRegistry T :=
  let name := "Ruru/" ++ structName
  let cname := str_to_cstring name
  let reserved_bytes : List CPtr := [CPtr.null, CPtr.null]
  ⟨{ wrap_struct_name := cname
     parent := CPtr.null
     data := CPtr.null
     flags := Value.fromRaw 0
     function :=
       { dmark := none
         dfree := some (FreeFn.typedDataFree structName)
         dsize := none
         reserved := reserved_bytes } }⟩

/-- The constraint implemented by every generated registry (src/dsl.rs,
lines 483-488): yield the descriptor. -/
class DataTypeWrapper (T : Type) (W : Type) where
  data_type : W → DataType

/-- The sole implementation the generator emits: `WrapperRegistry T`
wraps and retrieves data only for the native type `T`. -/
instance (T : Type) : DataTypeWrapper T (WrapperRegistry T) :=
  ⟨WrapperRegistry.data_type⟩

/-- A VM object carrying typed data: the descriptor it was wrapped
with, plus the (opaque) native pointer to the boxed struct. -/
structure TypedDataObject where
  descriptor : DataType
  dataPtr : Nat
deriving DecidableEq

/-- Modelled from the spec: `Class#wrap_data` (`class.rs` is not under
src/) — allocate a VM object that records the registry's descriptor and
owns the boxed native struct. -/
def wrap_data (T : Type) (dataPtr : Nat) (registry : WrapperRegistry T) :
    TypedDataObject :=
  ⟨registry.data_type, dataPtr⟩

/-- Modelled from the spec: `Object#get_data` / the VM's typed-data
check (`typed_data.rs` is not under src/) — retrieval succeeds only
when the object's recorded descriptor is the given registry's
descriptor; a mismatch is a hard error. -/
def get_data (T : Type) (obj : TypedDataObject) (registry : WrapperRegistry T) :
    Except Error Nat :=
  if obj.descriptor = registry.data_type then Except.ok obj.dataPtr
  else Except.error (Error.TypeMismatch
    (String.mk registry.data_type.wrap_struct_name)
    (String.mk obj.descriptor.wrap_struct_name))

/- ### The Array wrapper of src/class/array.rs -/

/-- The portion of the VM heap the array primitives read: the element
list of the array a value refers to. -/
def VmHeap : Type := Value → List Value

/-- Modelled from the spec: the VM's array-entry primitive behind
`binding::array::entry` (not under src/) — a negative index addresses
elements from the end; an index out of bounds on either side yields the
VM's nil. -/
def entryList (elems : List Value) (index : Int) : Value :=
  let j : Int := if index < 0 then index + (elems.length : Int) else index
  if 0 ≤ j then elems.getD j.toNat nilValue else nilValue

/-- Modelled from the spec: `binding::array::entry` (not under src/)
applies the VM's array-entry primitive to the referent of the value. -/
def binding.array.entry (heap : VmHeap) (ary : Value) (index : Int) : Value :=
  entryList (heap ary) index

/-- The generic object struct `object::Object` referenced by
`Array::at` (`class/object.rs` is not under src/; modelled from the
spec: it carries one VM value). -/
structure object.Object where
  value : Value
deriving DecidableEq

/-- `From<rb_value> for Object`: store the value unchanged. -/
def object.Object.fromValue (v : Value) : object.Object := ⟨v⟩

/-- The `Array` struct of src/class/array.rs: one VM value. -/
structure RbArray where
  value : Value
deriving DecidableEq

/-- `From<rb_value> for Array` (src/class/array.rs, lines 33-39):
store the value unchanged, no class check. -/
def RbArray.fromValue (v : Value) : RbArray := ⟨v⟩

/-- `Array::at` (src/class/array.rs, lines 20-24): wrap whatever the
array-entry primitive yields for `self.value()` at `index` into a
generic object. -/
def RbArray.at' (heap : VmHeap) (self : RbArray) (index : Int) : object.Object :=
  object.Object.fromValue (binding.array.entry heap self.value index)

/- ### The class! generator -/

/-- The struct generated by `class!($class)` (src/dsl.rs, lines 63-81):
one `Value` field; the macro body is identical for every class name. -/
structure GeneratedClass where
  value : Value
deriving DecidableEq

/-- The generated `From<Value>` impl (src/dsl.rs, lines 69-73): store
the value unchanged, no class-tag check. -/
def GeneratedClass.fromValue (v : Value) : GeneratedClass := ⟨v⟩

/- ### Helper lemmas -/

lemma parse_arguments_length (argc : Nat) (argv : Nat → AnyObject) :
    (VM.parse_arguments argc argv).length = argc := by
  simp [VM.parse_arguments]

lemma parse_arguments_get? (argc : Nat) (argv : Nat → AnyObject) (j : Nat)
    (hj : j < argc) : (VM.parse_arguments argc argv)[j]? = some (argv j) := by
  simp [VM.parse_arguments, List.getElem?_map, List.getElem?_range hj]

lemma vecIndex_parse (argc : Nat) (argv : Nat → AnyObject) (j : Nat)
    (hj : j < argc) : vecIndex (VM.parse_arguments argc argv) j = Outcome.ok (argv j) := by
  simp [vecIndex, parse_arguments_get? argc argv j hj]

lemma vecIndex_oob (l : List AnyObject) (i : Nat) (h : l.length ≤ i) :
    vecIndex l i = Outcome.panicked "index out of bounds" := by
  simp [vecIndex, List.getElem?_eq_none h]

lemma methodsBindings_length (mn : String) (arguments : List AnyObject) :
    ∀ (args : List (String × RClass)) (i : Nat),
      (methodsBindings mn arguments args i).length = args.length
  | [], _ => rfl
  | (_, _) :: rest, i => by
      simp [methodsBindings, methodsBindings_length mn arguments rest (i + 1)]

lemma methodsBindings_get? (mn : String) (arguments : List AnyObject) :
    ∀ (args : List (String × RClass)) (i j : Nat) (hj : j < args.length),
      (methodsBindings mn arguments args i)[j]? =
        some (methodsBindArg mn (args.get ⟨j, hj⟩).1 (args.get ⟨j, hj⟩).2
          arguments (i + j))
  | [], _, j, hj => by simp at hj
  | (argName, argType) :: rest, i, 0, hj => by
      simp [methodsBindings]
  | (argName, argType) :: rest, i, j + 1, hj => by
      have hj' : j < rest.length := by simpa using Nat.lt_of_succ_lt_succ hj
      have ih := methodsBindings_get? mn arguments rest (i + 1) j hj'
      have hadd : i + 1 + j = i + (j + 1) := by omega
      simpa [methodsBindings, hadd] using ih

lemma umethodsBindings_ok (argc : Nat) (argv : Nat → AnyObject) :
    ∀ (args : List (String × RClass)) (i : Nat), i + args.length ≤ argc →
      umethodsBindings (VM.parse_arguments argc argv) args i =
        Outcome.ok (specUncheckedBindings argv args i)
  | [], _, _ => rfl
  | (argName, argType) :: rest, i, h => by
      have hi : i < argc := by
        have := h
        simp [List.length_cons] at this
        omega
      have h' : (i + 1) + rest.length ≤ argc := by
        simp [List.length_cons] at h
        omega
      have ih := umethodsBindings_ok argc argv rest (i + 1) h'
      simp [umethodsBindings, vecIndex_parse argc argv i hi, ih,
        specUncheckedBindings]

lemma umethodsBindings_trap (arguments : List AnyObject) :
    ∀ (args : List (String × RClass)) (i : Nat),
      arguments.length < i + args.length → args ≠ [] →
      umethodsBindings arguments args i = Outcome.panicked "index out of bounds"
  | [], _, _, hne => by simp at hne
  | (argName, argType) :: rest, i, h, _ => by
      by_cases hi : i < arguments.length
      · have hrest : rest ≠ [] := by
          intro hr
          subst hr
          simp [List.length_cons] at h
          omega
        have h' : arguments.length < (i + 1) + rest.length := by
          simp [List.length_cons] at h
          omega
        have ih := umethodsBindings_trap arguments rest (i + 1) h' hrest
        have hv : vecIndex arguments i = Outcome.ok arguments[i] := by
          simp [vecIndex, List.getElem?_eq_getElem hi]
        simp [umethodsBindings, hv, ih]
      · have hv := vecIndex_oob arguments i (Nat.le_of_not_lt hi)
        simp [umethodsBindings, hv]

/- ### Claim theorems -/

/-- C7: for every native type made wrappable, the constructed
descriptor has exactly: the NUL-terminated name `"Ruru/<T>"`, a null
parent pointer, null data, zero flags, no mark callback, the generic
destructor for `T` as the free callback, no size callback, and two
zeroed reserved pointer slots. -/
theorem wrappable_descriptor_fields (T : Type) (s : String) :
    (WrapperRegistry.new T s).data_type.wrap_struct_name =
        ("Ruru/" ++ s).data ++ [Char.ofNat 0]
    ∧ (WrapperRegistry.new T s).data_type.parent = CPtr.null
    ∧ (WrapperRegistry.new T s).data_type.data = CPtr.null
    ∧ (WrapperRegistry.new T s).data_type.flags = Value.fromRaw 0
    ∧ (WrapperRegistry.new T s).data_type.flags.word = 0
    ∧ (WrapperRegistry.new T s).data_type.function.dmark = none
    ∧ (WrapperRegistry.new T s).data_type.function.dfree =
        some (FreeFn.typedDataFree s)
    ∧ (WrapperRegistry.new T s).data_type.function.dsize = none
    ∧ (WrapperRegistry.new T s).data_type.function.reserved =
        [CPtr.null, CPtr.null] :=
  ⟨rfl, rfl, rfl, rfl, rfl, rfl, rfl, rfl, rfl⟩

/-- C10: for every raw VM value, the `From` impl generated by `class!`
(and likewise the one of the `Array` wrapper) performs no class-tag
check and stores the value unchanged, so reading it back through the
shared `value()` capability is the identity. -/
theorem from_value_roundtrip (v : Value) :
    (GeneratedClass.fromValue v).value = v ∧ (RbArray.fromValue v).value = v :=
  ⟨rfl, rfl⟩

/-- C1: in a safe thunk, the binding for the declared argument at
position `i` is the argument-error value naming the argument, its
declared type and the method when `argv` has no slot `i`, and the
checked conversion of slot `i` to the declared type when the slot is
present; either way it is handed to the body as a fallible
`Except Error Typed` in the binding list. -/
theorem methods_binding_cases (mn : String) (args : List (String × RClass))
    (arguments : List AnyObject) (i : Nat) (hi : i < args.length) :
    (arguments[i]? = none →
      (methodsBindings mn arguments args 0)[i]? =
        some (Except.error (Error.ArgumentError
          (argumentErrorMessage mn (args.get ⟨i, hi⟩).1 (args.get ⟨i, hi⟩).2.name))))
    ∧ ∀ a, arguments[i]? = some a →
      (methodsBindings mn arguments args 0)[i]? =
        some (AnyObject.try_convert_to (args.get ⟨i, hi⟩).2 a) := by
  have hb := methodsBindings_get? mn arguments args 0 i hi
  rw [Nat.zero_add] at hb
  constructor
  · intro hnone
    rw [hb]
    simp [methodsBindArg, hnone]
  · intro a hsome
    rw [hb]
    simp [methodsBindArg, hsome]

/-- Witness for C1 at the method `start` with one declared argument
`address: Hash`: with an empty `argv` the binding is the argument
error; with a Hash value in slot 0 it is the checked conversion of that
slot. -/
theorem methods_binding_cases_witness :
    ((methodsBindings "start" [] [("address", ⟨"Hash"⟩)] 0)[0]? =
      some (Except.error (Error.ArgumentError
        (argumentErrorMessage "start" "address" "Hash"))))
    ∧ ((methodsBindings "start" [⟨⟨"Hash", 5⟩⟩] [("address", ⟨"Hash"⟩)] 0)[0]? =
      some (AnyObject.try_convert_to ⟨"Hash"⟩ ⟨⟨"Hash", 5⟩⟩)) :=
  ⟨(methods_binding_cases "start" [("address", ⟨"Hash"⟩)] [] 0 (by decide)).1 rfl,
   (methods_binding_cases "start" [("address", ⟨"Hash"⟩)] [⟨⟨"Hash", 5⟩⟩] 0
      (by decide)).2 ⟨⟨"Hash", 5⟩⟩ rfl⟩

/-- C4: a safe thunk never traps during argument binding: for every
`argc`, every `argv` (hence every combination of argument classes) and
every body, the generated function equals the body applied to the
binding list — the prologue is total and control always reaches the
user body, which alone decides how to handle each fallible binding;
there is one binding per declared argument. -/
theorem methods_thunk_always_runs_body {ρ : Type} (mn : String)
    (args : List (String × RClass))
    (body : List (Except Error Typed) → AnyObject → Outcome ρ)
    (argc : Nat) (argv : Nat → AnyObject) (itself : AnyObject) :
    methodsThunk mn args body argc argv itself =
      body (methodsBindings mn (VM.parse_arguments argc argv) args 0) itself
    ∧ (methodsBindings mn (VM.parse_arguments argc argv) args 0).length =
        args.length :=
  ⟨rfl, methodsBindings_length mn (VM.parse_arguments argc argv) args 0⟩

/-- C5: in a thunk of the unchecked generator, each declared argument
is bound, in declaration order with the slot counter advancing by one
per argument, to the unchecked downcast of its `argv` slot — no class
validation, whatever the slots' class tags — and the thunk hands that
binding list to the body. `specUncheckedBindings` restates the claimed
binding discipline from the spec's words. -/
theorem umethods_unchecked_binding {ρ : Type} (args : List (String × RClass))
    (body : List Typed → AnyObject → Outcome ρ)
    (argc : Nat) (argv : Nat → AnyObject) (itself : AnyObject)
    (h : args.length ≤ argc) :
    umethodsBindings (VM.parse_arguments argc argv) args 0 =
      Outcome.ok (specUncheckedBindings argv args 0)
    ∧ umethodsThunk args body argc argv itself =
        body (specUncheckedBindings argv args 0) itself := by
  have hb := umethodsBindings_ok argc argv args 0 (by omega)
  refine ⟨hb, ?_⟩
  simp [umethodsThunk, hb]

/-- Witness for C5: one declared argument `expected_length: Fixnum`
with a String (wrong class) in slot 0 — the binding is still the
unchecked downcast of slot 0, and the body receives it. -/
theorem umethods_unchecked_binding_witness :
    umethodsBindings (VM.parse_arguments 1 (fun _ => ⟨⟨"String", 9⟩⟩))
        [("expected_length", ⟨"Fixnum"⟩)] 0 =
      Outcome.ok [⟨⟨"Fixnum"⟩, ⟨"String", 9⟩⟩]
    ∧ umethodsThunk [("expected_length", ⟨"Fixnum"⟩)]
        (fun bs _ => Outcome.ok bs) 1 (fun _ => ⟨⟨"String", 9⟩⟩) ⟨⟨"String", 7⟩⟩ =
      Outcome.ok [⟨⟨"Fixnum"⟩, ⟨"String", 9⟩⟩] :=
  umethods_unchecked_binding [("expected_length", ⟨"Fixnum"⟩)]
    (fun bs _ => Outcome.ok bs) 1 (fun _ => ⟨⟨"String", 9⟩⟩) ⟨⟨"String", 7⟩⟩
    (by decide)

/-- C3 as amended: the safe thunk's prologue completes for every
`argc` and control reaches the body; the unchecked thunk's prologue
reaches the body when `argc` is at least the number of declared
arguments, but when `argc` is smaller the vector indexing
`_arguments[_i]` panics and the body is never reached. -/
theorem thunk_prologue_reachability {ρ : Type} (mn : String)
    (args : List (String × RClass))
    (bodyS : List (Except Error Typed) → AnyObject → Outcome ρ)
    (bodyU : List Typed → AnyObject → Outcome ρ)
    (argc : Nat) (argv : Nat → AnyObject) (itself : AnyObject) :
    methodsThunk mn args bodyS argc argv itself =
      bodyS (methodsBindings mn (VM.parse_arguments argc argv) args 0) itself
    ∧ (args.length ≤ argc →
        umethodsThunk args bodyU argc argv itself =
          bodyU (specUncheckedBindings argv args 0) itself)
    ∧ (argc < args.length →
        umethodsThunk args bodyU argc argv itself =
          Outcome.panicked "index out of bounds") := by
  refine ⟨rfl, ?_, ?_⟩
  · intro h
    have hb := umethodsBindings_ok argc argv args 0 (by omega)
    simp [umethodsThunk, hb]
  · intro h
    have hne : args ≠ [] := by
      intro he
      subst he
      simp at h
    have hb := umethodsBindings_trap (VM.parse_arguments argc argv) args 0
      (by rw [parse_arguments_length]; omega) hne
    simp [umethodsThunk, hb]

/-- Witness for C3 as amended: with one declared argument, `argc = 1`
reaches the body of the unchecked thunk while `argc = 0` makes its
prologue panic; the safe thunk reaches its body either way. -/
theorem thunk_prologue_reachability_witness :
    umethodsThunk [("expected_length", ⟨"Fixnum"⟩)]
        (fun _ _ => Outcome.ok nilValue) 1 (fun _ => ⟨⟨"Fixnum", 3⟩⟩) ⟨⟨"String", 7⟩⟩ =
      Outcome.ok nilValue
    ∧ umethodsThunk [("expected_length", ⟨"Fixnum"⟩)]
        (fun _ _ => Outcome.ok nilValue) 0 (fun _ => ⟨⟨"Fixnum", 3⟩⟩) ⟨⟨"String", 7⟩⟩ =
      Outcome.panicked "index out of bounds" :=
  ⟨((thunk_prologue_reachability "length_equals" [("expected_length", ⟨"Fixnum"⟩)]
      (fun _ _ => Outcome.ok nilValue) (fun _ _ => Outcome.ok nilValue) 1
      (fun _ => ⟨⟨"Fixnum", 3⟩⟩) ⟨⟨"String", 7⟩⟩).2.1 (by decide)),
   ((thunk_prologue_reachability "length_equals" [("expected_length", ⟨"Fixnum"⟩)]
      (fun _ _ => Outcome.ok nilValue) (fun _ _ => Outcome.ok nilValue) 0
      (fun _ => ⟨⟨"Fixnum", 3⟩⟩) ⟨⟨"String", 7⟩⟩).2.2 (by decide))⟩

/-- Counterexample to C3 as stated: an unchecked thunk with one
declared argument, called with `argc = 0`, panics in its
argument-binding prologue — its result is the prologue's panic, not
the body's value, so control never reaches the body. -/
theorem umethods_trap_counterexample :
    umethodsThunk [("expected_length", ⟨"Fixnum"⟩)]
        (fun _ _ => Outcome.ok nilValue) 0 (fun _ => ⟨⟨"Object", 0⟩⟩) ⟨⟨"String", 7⟩⟩ =
      Outcome.panicked "index out of bounds" := rfl

/-- C2 as amended: neither generator intercepts a panic — when the
body's outcome is a panic, the generated thunk's outcome is that same
panic, not a VM-side exception raise. -/
theorem thunk_panic_propagation {ρ : Type} (mn : String)
    (args : List (String × RClass))
    (bodyS : List (Except Error Typed) → AnyObject → Outcome ρ)
    (bodyU : List Typed → AnyObject → Outcome ρ)
    (argc : Nat) (argv : Nat → AnyObject) (itself : AnyObject) (m : String) :
    (bodyS (methodsBindings mn (VM.parse_arguments argc argv) args 0) itself =
        Outcome.panicked m →
      methodsThunk mn args bodyS argc argv itself = Outcome.panicked m)
    ∧ ∀ bs, umethodsBindings (VM.parse_arguments argc argv) args 0 =
        Outcome.ok bs →
      bodyU bs itself = Outcome.panicked m →
      umethodsThunk args bodyU argc argv itself = Outcome.panicked m := by
  constructor
  · intro hbody
    simpa [methodsThunk] using hbody
  · intro bs hbs hbody
    simp [umethodsThunk, hbs, hbody]

/-- Witness for C2 as amended: a body that panics with message `boom`
makes both generated thunks return that panic. -/
theorem thunk_panic_propagation_witness :
    methodsThunk "greet" [] (fun _ _ => Outcome.panicked "boom") 0
        (fun _ => ⟨⟨"Object", 0⟩⟩) ⟨⟨"Object", 1⟩⟩ =
      (Outcome.panicked "boom" : Outcome Value)
    ∧ umethodsThunk [] (fun _ _ => Outcome.panicked "boom") 0
        (fun _ => ⟨⟨"Object", 0⟩⟩) ⟨⟨"Object", 1⟩⟩ =
      (Outcome.panicked "boom" : Outcome Value) :=
  ⟨(thunk_panic_propagation "greet" [] (fun _ _ => Outcome.panicked "boom")
      (fun _ _ => Outcome.panicked "boom") 0 (fun _ => ⟨⟨"Object", 0⟩⟩)
      ⟨⟨"Object", 1⟩⟩ "boom").1 rfl,
   (thunk_panic_propagation "greet" [] (fun _ _ => Outcome.panicked "boom")
      (fun _ _ => Outcome.panicked "boom") 0 (fun _ => ⟨⟨"Object", 0⟩⟩)
      ⟨⟨"Object", 1⟩⟩ "boom").2 [] rfl rfl⟩

/-- Counterexample to C2 as stated: a safe thunk whose body panics with
`boom` has the panic itself as its outcome — the generated function
contains no interception that would turn it into a VM-side exception
raise, so the panic unwinds out of the thunk. -/
theorem panic_unwinds_counterexample :
    methodsThunk "greet" [] (fun _ _ => Outcome.panicked "boom") 0
        (fun _ => ⟨⟨"Object", 0⟩⟩) ⟨⟨"Object", 1⟩⟩ =
      (Outcome.panicked "boom" : Outcome Value)
    ∧ (Outcome.panicked "boom" : Outcome Value) ≠ Outcome.raised "boom" :=
  ⟨rfl, by decide⟩

/-- Helper: registries generated for native types with distinct
stringified names have distinct descriptors (their free callbacks are
the generic destructors of distinct types). -/
lemma registry_data_type_ne (S C : Type) (sname cname : String)
    (h : sname ≠ cname) :
    (WrapperRegistry.new S sname).data_type ≠
      (WrapperRegistry.new C cname).data_type := by
  intro he
  apply h
  have hf := congrArg (fun d => d.function.dfree) he
  simp only [WrapperRegistry.new] at hf
  cases hf
  rfl

/-- C6: a value wrapped through the registry of native type `S` can be
retrieved only with `S`'s own registry: retrieval through the registry
of an unrelated native type `C` is a hard error, while retrieval
through the matching registry yields the boxed struct. The generated
registry is phantom-typed in its native type and the sole
`DataTypeWrapper` implementation ties it to that type. -/
theorem registry_mismatch_hard_error (S C : Type) (sname cname : String)
    (h : sname ≠ cname) (p : Nat) :
    get_data C (wrap_data S p (WrapperRegistry.new S sname))
        (WrapperRegistry.new C cname) =
      Except.error (Error.TypeMismatch
        (String.mk (str_to_cstring ("Ruru/" ++ cname)))
        (String.mk (str_to_cstring ("Ruru/" ++ sname))))
    ∧ get_data S (wrap_data S p (WrapperRegistry.new S sname))
        (WrapperRegistry.new S sname) = Except.ok p := by
  have hne := registry_data_type_ne S C sname cname h
  constructor
  · simp only [get_data, wrap_data]
    rw [if_neg hne]
    rfl
  · simp [get_data, wrap_data]

/-- Witness for C6: a `Server` wrapped through the `Server` registry is
a hard error under the `Client` registry and retrievable under its own. -/
theorem registry_mismatch_hard_error_witness :
    get_data Bool (wrap_data Nat 3 (WrapperRegistry.new Nat "Server"))
        (WrapperRegistry.new Bool "Client") =
      Except.error (Error.TypeMismatch
        (String.mk (str_to_cstring ("Ruru/" ++ "Client")))
        (String.mk (str_to_cstring ("Ruru/" ++ "Server"))))
    ∧ get_data Nat (wrap_data Nat 3 (WrapperRegistry.new Nat "Server"))
        (WrapperRegistry.new Nat "Server") = Except.ok 3 :=
  registry_mismatch_hard_error Nat Bool "Server" "Client" (by decide) 3

/-- C8: `Array::at` returns a generic object wrapping whatever the
VM's array-entry primitive yields for the index; a negative index in
range addresses elements from the end (`length + index`), and an index
out of bounds on either side yields the VM's nil. -/
theorem array_at_spec (heap : VmHeap) (self : RbArray) (index : Int) :
    RbArray.at' heap self index =
      object.Object.fromValue (binding.array.entry heap self.value index)
    ∧ (index < 0 → -(((heap self.value).length : Int)) ≤ index →
        RbArray.at' heap self index =
          object.Object.fromValue
            ((heap self.value).getD (index + (heap self.value).length).toNat nilValue)
          ∧ (index + (heap self.value).length).toNat < (heap self.value).length)
    ∧ ((((heap self.value).length : Int) ≤ index ∨
          index < -(((heap self.value).length : Int))) →
        RbArray.at' heap self index = object.Object.fromValue nilValue) := by
  refine ⟨rfl, ?_, ?_⟩
  · intro hneg hge
    have hj : (0 : Int) ≤ index + (heap self.value).length := by omega
    constructor
    · simp only [RbArray.at', binding.array.entry, entryList]
      rw [if_pos hneg, if_pos hj]
    · omega
  · intro hoob
    rcases hoob with hhi | hlo
    · have hnneg : ¬ index < 0 := by omega
      have hj : (0 : Int) ≤ index := by omega
      simp only [RbArray.at', binding.array.entry, entryList]
      rw [if_neg hnneg, if_pos hj]
      have hlen : (heap self.value).length ≤ index.toNat := by omega
      rw [List.getD_eq_default _ _ hlen]
    · have hj : ¬ (0 : Int) ≤ index + (heap self.value).length := by omega
      have hneg : index < 0 := by omega
      simp only [RbArray.at', binding.array.entry, entryList]
      rw [if_pos hneg, if_neg hj]

/-- Witness for C8 on the two-element array `[10, 20]`: index `-1`
yields the last element and index `5` yields nil. -/
theorem array_at_spec_witness :
    RbArray.at' (fun _ => [⟨"Fixnum", 10⟩, ⟨"Fixnum", 20⟩]) ⟨⟨"Array", 1⟩⟩ (-1) =
      object.Object.fromValue ⟨"Fixnum", 20⟩
    ∧ RbArray.at' (fun _ => [⟨"Fixnum", 10⟩, ⟨"Fixnum", 20⟩]) ⟨⟨"Array", 1⟩⟩ 5 =
        object.Object.fromValue nilValue :=
  ⟨((array_at_spec (fun _ => [⟨"Fixnum", 10⟩, ⟨"Fixnum", 20⟩]) ⟨⟨"Array", 1⟩⟩
      (-1)).2.1 (by decide) (by decide)).1,
   (array_at_spec (fun _ => [⟨"Fixnum", 10⟩, ⟨"Fixnum", 20⟩]) ⟨⟨"Array", 1⟩⟩
      5).2.2 (by decide)⟩
